import Mathlib

/-!
Verification of the seat-inventory and
allocation engine (src/app.py): the data model (booking records stored in a
key-value table with a composite primary key and a secondary index on
item/date), the availability computation shared by the train and bus flows,
the finalize operations of all four flows, and cancellation.
-/

namespace TravelGo

set_option maxRecDepth 40000

/-- A notification published over the pub/sub channel
(`send_sns_notification`): a subject and a message string. -/
structure Notification where
  subject : String
  message : String
  deriving DecidableEq, Repr

/-- One item of the `bookings` table.  Python stores a loosely-typed dict;
fields that only some flows write are `Option`s (`none` = attribute absent
from the item).  The composite primary key is `(user_email, booking_date)`;
the secondary index `GSI_ItemDate` indexes items that carry both `item_id`
and `travel_date`. -/
structure BookingRecord where
  user_email : String
  booking_date : String
  booking_id : String
  booking_type : String
  item_id : Option String := none
  travel_date : Option String := none
  seats_display : Option String := none
  flight_id : Option String := none
  name : Option String := none
  source : Option String := none
  destination : Option String := none
  departure_time : Option String := none
  arrival_time : Option String := none
  time : Option String := none
  type : Option String := none
  airline : Option String := none
  flight_number : Option String := none
  train_number : Option String := none
  location : Option String := none
  checkin_date : Option String := none
  checkout_date : Option String := none
  num_persons : Option Nat := none
  num_rooms : Option Nat := none
  num_guests : Option Nat := none
  nights : Option Int := none
  rating : Option Nat := none
  price_per_person : Option ℚ := none
  price_per_night : Option ℚ := none
  total_price : Option ℚ := none
  deriving DecidableEq, Repr

/-- The bookings table, as the sequence of its items. -/
abbrev Store := List BookingRecord

/-- `bookings_table.query` on the index `GSI_ItemDate` with the key
condition `item_id = i and travel_date = d`: the items carrying both
index attributes with the given values. -/
def queryByItemDate (store : Store) (i d : String) : List BookingRecord :=
  store.filter (fun b => b.item_id == some i && b.travel_date == some d)

/-- `bookings_table.put_item(Item=r)`: a DynamoDB put replaces any item with
the same primary key `(user_email, booking_date)` and adds the new item. -/
def put_item (store : Store) (r : BookingRecord) : Store :=
  store.filter (fun b =>
    !(b.user_email == r.user_email && b.booking_date == r.booking_date)) ++ [r]

/-- `bookings_table.delete_item` with the key `(user_email = e, booking_date = d)`. -/
def delete_item (store : Store) (e d : String) : Store :=
  store.filter (fun b => !(b.user_email == e && b.booking_date == d))

/-- The Python split of `s` on the delimiter `", "` over the character list:
scan left to right,
cutting at each (non-overlapping) occurrence of the two-character
delimiter. -/
def splitSeatsAux : List Char → List Char → List String
  | [], acc => [String.mk acc.reverse]
  | ',' :: ' ' :: rest, acc => String.mk acc.reverse :: splitSeatsAux rest []
  | c :: rest, acc => splitSeatsAux rest (c :: acc)

/-- The split of `seats_display` on the delimiter `", "`. -/
def splitSeats (s : String) : List String :=
  splitSeatsAux s.data []

/-- The join of `seats` with the separator `", "`. -/
def joinSeats : List String → String
  | [] => ""
  | [s] => s
  | s :: t :: rest => s ++ ", " ++ joinSeats (t :: rest)

/-- The seat identifiers one record contributes to the booked set: the loop
body: when `seats_display` is in `b`, update `booked_seats` with its split
— a record without the attribute contributes nothing. -/
def parsedSeats (b : BookingRecord) : List String :=
  match b.seats_display with
  | some sd => splitSeats sd
  | none => []

/-- The `booked_seats` accumulation loop over a query result. -/
def takenFold (l : List BookingRecord) : List String :=
  l.foldl (fun acc b => acc ++ parsedSeats b) []

/-- The set of already-taken seat identifiers for `(item_id, travel_date)`:
query the secondary index and accumulate each parsed
`seats_display` (membership is what the code consumes). -/
def takenSeats (store : Store) (i d : String) : List String :=
  takenFold (queryByItemDate store i d)

/-- `available_seats = [seat for seat in all_seats if seat not in booked_seats]`:
the seat universe minus the taken seats, in universe order. -/
def computeAvailableSeats (store : Store) (i d : String)
    (seat_universe : List String) : List String :=
  seat_universe.filter (fun s => !(decide (s ∈ takenSeats store i d)))

/-- `all_seats = [f"S{i}" for i in range(1, 101)]` — the train universe. -/
def trainUniverse : List String :=
  (List.range' 1 100).map (fun i => "S" ++ toString i)

/-- `all_seats = [f"S{i}" for i in range(1, 41)]` — the bus universe. -/
def busUniverse : List String :=
  (List.range' 1 40).map (fun i => "S" ++ toString i)

/-- The availability computation as the route handlers run it against the
store: one secondary-index query (a read) followed by pure set arithmetic;
the pair returns the result together with the store the handler leaves
behind. -/
def computeAvailableSeatsRun (store : Store) (i d : String)
    (seat_universe : List String) : List String × Store :=
  let items := queryByItemDate store i d
  let booked := takenFold items
  (seat_universe.filter (fun s => !(decide (s ∈ booked))), store)

/-- The user-facing failures of the booking flows (section 7 taxonomy; the
routes surface them as a 401/400 JSON response or a flashed redirect). -/
inductive BookingError
  | notLoggedIn
  | noPendingBooking
  | insufficientSeats
  | seatCollision
  | missingData
  deriving DecidableEq, Repr

deriving instance DecidableEq for Except

/-- What a finalize route leaves behind: the bookings table after the
request, the notifications published during it, and its outcome (the
committed record, or the error shown to the user). -/
structure FlowResult where
  store : Store
  notifications : List Notification
  result : Except BookingError BookingRecord
  deriving DecidableEq, Repr

/-- The query-string arguments of `/confirm_train_details`, already decoded
by the web framework (`price` as the Decimal it parses to, `persons` as the
int). -/
structure TrainArgs where
  name : String
  trainNumber : String
  source : String
  destination : String
  departureTime : String
  arrivalTime : String
  price : ℚ
  date : String
  persons : Nat
  trainId : String
  deriving DecidableEq, Repr

/-- The `booking_details` dict `/confirm_train_details` builds and stores in
the session key `pending_booking`. -/
structure PendingTrain where
  name : String
  train_number : String
  source : String
  destination : String
  departure_time : String
  arrival_time : String
  price_per_person : ℚ
  travel_date : String
  num_persons : Nat
  item_id : String
  user_email : String
  total_price : ℚ
  deriving DecidableEq, Repr

/-- The dict literal of `confirm_train_details` lines 155-169:
`total_price = Decimal(price) * int(persons)`. -/
def mkPendingTrain (email : String) (a : TrainArgs) : PendingTrain :=
  { name := a.name
    train_number := a.trainNumber
    source := a.source
    destination := a.destination
    departure_time := a.departureTime
    arrival_time := a.arrivalTime
    price_per_person := a.price
    travel_date := a.date
    num_persons := a.persons
    item_id := a.trainId
    user_email := email
    total_price := a.price * a.persons }

/-- `/confirm_train_details`: requires login, builds the pending dict,
recomputes availability for `(item_id, travel_date)` over the 100-seat train
universe, and only when at least `num_persons` seats remain stores the draft
in the session (`none` = the route redirected away without leaving a
draft). -/
def confirm_train_details (sessionEmail : Option String) (a : TrainArgs)
    (store : Store) : Option PendingTrain :=
  match sessionEmail with
  | none => none
  | some email =>
    let bd := mkPendingTrain email a
    let available := computeAvailableSeats store bd.item_id bd.travel_date trainUniverse
    if available.length < bd.num_persons then none
    else some bd

/-- The item `/final_confirm_train_booking` writes: the pending dict plus
`seats_display`, `booking_id` and `booking_date`. -/
def mkTrainRecord (p : PendingTrain) (seats newId now : String) : BookingRecord :=
  { user_email := p.user_email
    booking_date := now
    booking_id := newId
    booking_type := "train"
    item_id := some p.item_id
    travel_date := some p.travel_date
    seats_display := some seats
    name := some p.name
    source := some p.source
    destination := some p.destination
    departure_time := some p.departure_time
    arrival_time := some p.arrival_time
    train_number := some p.train_number
    num_persons := some p.num_persons
    price_per_person := some p.price_per_person
    total_price := some p.total_price }

/-- The SNS message of `final_confirm_train_booking` lines 241-244. -/
def trainNotification (p : PendingTrain) (seats : String) : Notification :=
  { subject := "Train Booking Confirmed"
    message := "Train " ++ p.train_number ++ " from " ++ p.source ++ " to "
      ++ p.destination ++ " on " ++ p.travel_date ++ " is confirmed.\nSeats: "
      ++ seats ++ "\nTotal: ₹" ++ toString p.total_price }

/-- `/final_confirm_train_booking`: pops the session draft, recomputes
availability over the train universe, rejects when fewer seats remain than
persons, otherwise allocates `num_persons` seats by `random.sample` (the
`sample` argument stands for the random source), joins them with `", "`,
stamps a fresh `booking_id` (`newId`, the uuid4) and `booking_date` (`now`),
puts the item and publishes one notification. -/
def final_confirm_train_booking (sessionEmail : Option String)
    (pending : Option PendingTrain) (store : Store)
    (sample : List String → Nat → List String) (newId now : String) : FlowResult :=
  match sessionEmail with
  | none => ⟨store, [], .error .notLoggedIn⟩
  | some _ =>
    match pending with
    | none => ⟨store, [], .error .noPendingBooking⟩
    | some bd =>
      let available := computeAvailableSeats store bd.item_id bd.travel_date trainUniverse
      if available.length < bd.num_persons then
        ⟨store, [], .error .insufficientSeats⟩
      else
        let allocated := sample available bd.num_persons
        let seats := joinSeats allocated
        let r := mkTrainRecord bd seats newId now
        ⟨put_item store r, [trainNotification bd seats], .ok r⟩

/-- The `booking` dict the bus flow holds under the session key `pending_booking`
(built by `/confirm_bus_details` and `/select_bus_seats`). -/
structure PendingBus where
  name : String
  source : String
  destination : String
  time : String
  type : String
  price_per_person : ℚ
  travel_date : String
  num_persons : Nat
  item_id : String
  user_email : String
  total_price : ℚ
  deriving DecidableEq, Repr

/-- The item `/final_confirm_bus_booking` writes: the pending dict plus the
raw `selected_seats` form string as `seats_display`, `booking_id` and
`booking_date`. -/
def mkBusRecord (p : PendingBus) (seats newId now : String) : BookingRecord :=
  { user_email := p.user_email
    booking_date := now
    booking_id := newId
    booking_type := "bus"
    item_id := some p.item_id
    travel_date := some p.travel_date
    seats_display := some seats
    name := some p.name
    source := some p.source
    destination := some p.destination
    time := some p.time
    type := some p.type
    num_persons := some p.num_persons
    price_per_person := some p.price_per_person
    total_price := some p.total_price }

/-- The SNS message of `final_confirm_bus_booking` lines 367-370. -/
def busNotification (p : PendingBus) (seats : String) : Notification :=
  { subject := "Bus Booking Confirmed"
    message := "Your bus from " ++ p.source ++ " to " ++ p.destination ++ " on "
      ++ p.travel_date ++ " is confirmed.\nSeats: " ++ seats
      ++ "\nTotal: ₹" ++ toString p.total_price }

/-- `/final_confirm_bus_booking`: pops the draft and reads the
`selected_seats` form field (`not selected_seats_str` is true both for a
missing field and for the empty string); splits it on `", "`; re-queries the
taken seats; rejects when any selected seat is among them
(`any(s in existing_booked_seats for s in selected_seats)`); otherwise
writes the record and publishes one notification. -/
def final_confirm_bus_booking (sessionEmail : Option String)
    (pending : Option PendingBus) (selectedSeatsStr : Option String)
    (store : Store) (newId now : String) : FlowResult :=
  match sessionEmail with
  | none => ⟨store, [], .error .notLoggedIn⟩
  | some _ =>
    match pending, selectedSeatsStr with
    | none, _ => ⟨store, [], .error .missingData⟩
    | some _, none => ⟨store, [], .error .missingData⟩
    | some bk, some sstr =>
      if sstr = "" then ⟨store, [], .error .missingData⟩
      else
        let selected := splitSeats sstr
        let existingBooked := takenSeats store bk.item_id bk.travel_date
        if selected.any (fun s => decide (s ∈ existingBooked)) then
          ⟨store, [], .error .seatCollision⟩
        else
          let r := mkBusRecord bk sstr newId now
          ⟨put_item store r, [busNotification bk sstr], .ok r⟩

/-- The dict `/confirm_flight_details` stores under the session key
`pending_flight_booking` (`total_price = price * passengers`;
the float prices are modelled as the rationals they denote). -/
structure PendingFlight where
  flight_id : String
  airline : String
  flight_number : String
  source : String
  destination : String
  departure_time : String
  arrival_time : String
  travel_date : String
  num_persons : Nat
  price_per_person : ℚ
  total_price : ℚ
  deriving DecidableEq, Repr

/-- The item `/confirm_flight_booking` writes: the pending dict plus
`booking_type`, `user_email`, `booking_date`, `booking_id`.  It has a
`flight_id` attribute but no `item_id` and no `seats_display`. -/
def mkFlightRecord (p : PendingFlight) (email newId now : String) : BookingRecord :=
  { user_email := email
    booking_date := now
    booking_id := newId
    booking_type := "flight"
    flight_id := some p.flight_id
    travel_date := some p.travel_date
    airline := some p.airline
    flight_number := some p.flight_number
    source := some p.source
    destination := some p.destination
    departure_time := some p.departure_time
    arrival_time := some p.arrival_time
    num_persons := some p.num_persons
    price_per_person := some p.price_per_person
    total_price := some p.total_price }

/-- The SNS message of `confirm_flight_booking` lines 443-446. -/
def flightNotification (p : PendingFlight) : Notification :=
  { subject := "Flight Booking Confirmed"
    message := "Your flight booking on " ++ p.travel_date ++ " from " ++ p.source
      ++ " to " ++ p.destination ++ " with " ++ p.airline
      ++ " is confirmed.\nTotal: ₹" ++ toString p.total_price }

/-- `/confirm_flight_booking`: pops the flight draft, stamps identity and
date, writes the item (no seat inventory check at all) and publishes one
notification. -/
def confirm_flight_booking (sessionEmail : Option String)
    (pending : Option PendingFlight) (store : Store) (newId now : String) : FlowResult :=
  match sessionEmail with
  | none => ⟨store, [], .error .notLoggedIn⟩
  | some email =>
    match pending with
    | none => ⟨store, [], .error .noPendingBooking⟩
    | some p =>
      let r := mkFlightRecord p email newId now
      ⟨put_item store r, [flightNotification p], .ok r⟩

/-- The dict `/confirm_hotel_details` stores under the session key
`pending_hotel_booking`: no `item_id`, no `travel_date`, no
seat data; `nights` is the signed day difference of the checkout and
checkin dates and `total_price = price_per_night * num_rooms * nights`. -/
structure PendingHotel where
  name : String
  location : String
  checkin_date : String
  checkout_date : String
  num_rooms : Nat
  num_guests : Nat
  price_per_night : ℚ
  rating : Nat
  nights : Int
  total_price : ℚ
  deriving DecidableEq, Repr

/-- The item `/confirm_hotel_booking` writes: neither `item_id` nor
`travel_date` nor `seats_display` is present. -/
def mkHotelRecord (p : PendingHotel) (email newId now : String) : BookingRecord :=
  { user_email := email
    booking_date := now
    booking_id := newId
    booking_type := "hotel"
    name := some p.name
    location := some p.location
    checkin_date := some p.checkin_date
    checkout_date := some p.checkout_date
    num_rooms := some p.num_rooms
    num_guests := some p.num_guests
    nights := some p.nights
    rating := some p.rating
    price_per_night := some p.price_per_night
    total_price := some p.total_price }

/-- The SNS message of `confirm_hotel_booking` lines 524-527. -/
def hotelNotification (p : PendingHotel) : Notification :=
  { subject := "Hotel Booking Confirmed"
    message := "Hotel booking at " ++ p.name ++ " in " ++ p.location ++ " from "
      ++ p.checkin_date ++ " to " ++ p.checkout_date
      ++ " is confirmed.\nTotal: ₹" ++ toString p.total_price }

/-- `/confirm_hotel_booking`: pops the hotel draft, stamps identity and
date, writes the item and publishes one notification. -/
def confirm_hotel_booking (sessionEmail : Option String)
    (pending : Option PendingHotel) (store : Store) (newId now : String) : FlowResult :=
  match sessionEmail with
  | none => ⟨store, [], .error .notLoggedIn⟩
  | some email =>
    match pending with
    | none => ⟨store, [], .error .noPendingBooking⟩
    | some p =>
      let r := mkHotelRecord p email newId now
      ⟨put_item store r, [hotelNotification p], .ok r⟩

/-- `/cancel_booking`: requires login and the `booking_id` and
`booking_date` form fields (`not x` is true for a missing field and for the
empty string); deletes by the composite primary key
`(user_email, booking_date)`.  Returns the bookings table it leaves
behind. -/
def cancel_booking (sessionEmail : Option String)
    (bookingId bookingDate : Option String) (store : Store) : Store :=
  match sessionEmail with
  | none => store
  | some email =>
    match bookingId, bookingDate with
    | some bid, some bdate =>
      if bid = "" ∨ bdate = "" then store
      else delete_item store email bdate
    | _, _ => store

/-! ### Concrete stores and drafts used to instantiate the theorems -/

/-- A store whose one record holds seats S1..S95 of train T9 on 2024-06-01. -/
def store95 : Store :=
  [{ user_email := "a@x", booking_date := "2024-01-01T00:00:00", booking_id := "bk-95",
     booking_type := "train", item_id := some "T9", travel_date := some "2024-06-01",
     seats_display := some (joinSeats ((List.range' 1 95).map (fun i => "S" ++ toString i))) }]

/-- A 10-person train draft for the trip of `store95`. -/
def pending95 : PendingTrain :=
  { name := "Express", train_number := "12345", source := "A", destination := "B",
    departure_time := "08:00", arrival_time := "12:00", price_per_person := 100,
    travel_date := "2024-06-01", num_persons := 10, item_id := "T9",
    user_email := "u@x", total_price := 1000 }

/-- A bus draft for bus B7 on 2024-06-05. -/
def busPending : PendingBus :=
  { name := "Volvo", source := "A", destination := "B", time := "10:00", type := "AC",
    price_per_person := 500, travel_date := "2024-06-05", num_persons := 1,
    item_id := "B7", user_email := "u@x", total_price := 500 }

/-- A store whose one bus record already holds seat S1 of bus B7. -/
def busStoreS1 : Store :=
  [{ user_email := "f@x", booking_date := "2024-03-01T00:00:00", booking_id := "bk-s1",
     booking_type := "bus", item_id := some "B7", travel_date := some "2024-06-05",
     seats_display := some "S1" }]

/-- A store whose one record holds the identifier X1, which lies outside
every seat universe of the application. -/
def oddSeatStore : Store :=
  [{ user_email := "c@x", booking_date := "2024-02-02T00:00:00", booking_id := "bk-odd",
     booking_type := "bus", item_id := some "B1", travel_date := some "2024-06-02",
     seats_display := some "X1" }]

/-- A store whose one bus record holds seats S1 and S2 of bus B2. -/
def demoBusStore : Store :=
  [{ user_email := "d@x", booking_date := "2024-02-03T00:00:00", booking_id := "bk-demo",
     booking_type := "bus", item_id := some "B2", travel_date := some "2024-06-03",
     seats_display := some "S1, S2" }]

/-- The train search arguments of a 3-person request for train T100 on
2024-06-01 at price 50. -/
def trainArgs3 : TrainArgs :=
  { name := "Shatabdi", trainNumber := "12001", source := "A", destination := "B",
    departureTime := "06:00", arrivalTime := "10:00", price := 50,
    date := "2024-06-01", persons := 3, trainId := "T100" }

/-- Bus booking records of three different users for the same bus B3 on the
same date. -/
def recA : BookingRecord :=
  { user_email := "a@x", booking_date := "2024-03-01T00:00:00", booking_id := "bk-a",
    booking_type := "bus", item_id := some "B3", travel_date := some "2024-06-07",
    seats_display := some "S1, S2" }

/-- Second record of the B3 trip, different composite key. -/
def recB : BookingRecord :=
  { user_email := "b@x", booking_date := "2024-03-02T00:00:00", booking_id := "bk-b",
    booking_type := "bus", item_id := some "B3", travel_date := some "2024-06-07",
    seats_display := some "S5" }

/-- Third record of the B3 trip, the one the cancellation test deletes. -/
def recC : BookingRecord :=
  { user_email := "c@x", booking_date := "2024-03-03T00:00:00", booking_id := "bk-c",
    booking_type := "bus", item_id := some "B3", travel_date := some "2024-06-07",
    seats_display := some "S3" }

/-- A flight draft. -/
def flightPending : PendingFlight :=
  { flight_id := "F22", airline := "IndiGo", flight_number := "6E-100", source := "A",
    destination := "B", departure_time := "07:00", arrival_time := "09:00",
    travel_date := "2024-06-09", num_persons := 2, price_per_person := 3000,
    total_price := 6000 }

/-- A hotel draft. -/
def hotelPending : PendingHotel :=
  { name := "Grand", location := "Goa", checkin_date := "2024-06-10",
    checkout_date := "2024-06-12", num_rooms := 1, num_guests := 2,
    price_per_night := 2000, rating := 4, nights := 2, total_price := 4000 }

/-! ### Basic lemmas about the store and the availability computation -/

theorem foldl_seats_eq (l : List BookingRecord) (init : List String) :
    l.foldl (fun acc b => acc ++ parsedSeats b) init = init ++ takenFold l := by
  induction l generalizing init with
  | nil => simp [takenFold]
  | cons b t ih =>
    show t.foldl _ (init ++ parsedSeats b) = init ++ takenFold (b :: t)
    rw [ih]
    show init ++ parsedSeats b ++ takenFold t = init ++ t.foldl _ ([] ++ parsedSeats b)
    rw [List.nil_append, ih, List.append_assoc]

theorem takenFold_eq_flatMap (l : List BookingRecord) :
    takenFold l = l.flatMap parsedSeats := by
  induction l with
  | nil => rfl
  | cons b t ih =>
    show (b :: t).foldl _ [] = _
    rw [List.foldl_cons, foldl_seats_eq, List.nil_append, List.flatMap_cons, ih]

theorem mem_queryByItemDate {b : BookingRecord} {store : Store} {i d : String} :
    b ∈ queryByItemDate store i d ↔
      b ∈ store ∧ b.item_id = some i ∧ b.travel_date = some d := by
  simp [queryByItemDate, List.mem_filter, and_assoc]

theorem mem_takenSeats {s : String} {store : Store} {i d : String} :
    s ∈ takenSeats store i d ↔
      ∃ b, b ∈ queryByItemDate store i d ∧ s ∈ parsedSeats b := by
  simp [takenSeats, takenFold_eq_flatMap, List.mem_flatMap]

theorem mem_computeAvailableSeats {s : String} {store : Store} {i d : String}
    {u : List String} :
    s ∈ computeAvailableSeats store i d u ↔ s ∈ u ∧ s ∉ takenSeats store i d := by
  simp [computeAvailableSeats, List.mem_filter]

theorem not_mem_parsedSeats_iff {s : String} {b : BookingRecord} :
    s ∉ parsedSeats b ↔ ∀ sd, b.seats_display = some sd → s ∉ splitSeats sd := by
  cases h : b.seats_display <;> simp [parsedSeats, h]

theorem queryByItemDate_append (s₁ s₂ : Store) (i d : String) :
    queryByItemDate (s₁ ++ s₂) i d = queryByItemDate s₁ i d ++ queryByItemDate s₂ i d :=
  List.filter_append s₁ s₂

theorem takenSeats_append (s₁ s₂ : Store) (i d : String) :
    takenSeats (s₁ ++ s₂) i d = takenSeats s₁ i d ++ takenSeats s₂ i d := by
  simp [takenSeats, queryByItemDate_append, takenFold_eq_flatMap]

theorem put_item_eq_append_of_fresh {store : Store} {r : BookingRecord}
    (h : ∀ x ∈ store, x.booking_date ≠ r.booking_date) :
    put_item store r = store ++ [r] := by
  unfold put_item
  congr 1
  apply List.filter_eq_self.mpr
  intro b hb
  have hd : (b.booking_date == r.booking_date) = false := by simpa using h b hb
  simp [hd]

theorem mem_put_item_of_ne_date {b r : BookingRecord} {store : Store}
    (hb : b ∈ store) (hne : b.booking_date ≠ r.booking_date) :
    b ∈ put_item store r := by
  apply List.mem_append.mpr
  left
  apply List.mem_filter.mpr
  refine ⟨hb, ?_⟩
  have hd : (b.booking_date == r.booking_date) = false := by simpa using hne
  simp [hd]

theorem trainUniverse_nodup : trainUniverse.Nodup := by decide

theorem computeAvailableSeats_nodup (store : Store) (i d : String) :
    (computeAvailableSeats store i d trainUniverse).Nodup :=
  trainUniverse_nodup.filter _

/-! ### The claims -/

/-- C1: for every store state, `computeAvailableSeats (item_id, travel_date,
seat_universe)` returns exactly the seats of the universe, in universe
order (a sublist of the universe), minus the union of the split
`seats_display` fields of the records matching the item and date; and the
handler path computing it performs no write: it returns the result together
with the unchanged store. -/
theorem C1_computeAvailableSeats_characterized (store : Store) (i d : String)
    (u : List String) :
    (computeAvailableSeats store i d u).Sublist u ∧
    (∀ s, s ∈ computeAvailableSeats store i d u ↔
      (s ∈ u ∧ ∀ b ∈ queryByItemDate store i d,
        ∀ sd, b.seats_display = some sd → s ∉ splitSeats sd)) ∧
    computeAvailableSeatsRun store i d u = (computeAvailableSeats store i d u, store) := by
  refine ⟨List.filter_sublist u, ?_, rfl⟩
  intro s
  rw [mem_computeAvailableSeats]
  constructor
  · rintro ⟨hu, ht⟩
    refine ⟨hu, fun b hb sd hsd hs => ht (mem_takenSeats.mpr ⟨b, hb, ?_⟩)⟩
    simpa [parsedSeats, hsd] using hs
  · rintro ⟨hu, hall⟩
    refine ⟨hu, fun ht => ?_⟩
    obtain ⟨b, hb, hs⟩ := mem_takenSeats.mp ht
    exact (not_mem_parsedSeats_iff.mpr (fun sd hsd => hall b hb sd hsd)) hs

/-- C2 (counterexample): the claim says a `USER_CHOSEN` bus finalize is
rejected whenever a requested seat is not in the freshly recomputed
available set.  The requested seat X1 is not in the available set (it is
outside the 40-seat bus universe and nobody holds it), yet on the empty
store the finalize succeeds and writes the booking: the code only rejects
seats that appear in the taken set. -/
theorem C2_out_of_universe_seat_accepted :
    "X1" ∉ computeAvailableSeats [] "B7" "2024-06-05" busUniverse ∧
    (final_confirm_bus_booking (some "u@x") (some busPending) (some "X1") []
        "id-x1" "2024-06-05T09:00:00").result =
      .ok (mkBusRecord busPending "X1" "id-x1" "2024-06-05T09:00:00") ∧
    (final_confirm_bus_booking (some "u@x") (some busPending) (some "X1") []
        "id-x1" "2024-06-05T09:00:00").store =
      [mkBusRecord busPending "X1" "id-x1" "2024-06-05T09:00:00"] := by
  decide

/-- C2 (amended): for every `USER_CHOSEN` bus finalize with a pending draft,
if any requested seat is among the freshly recomputed taken seats of the
item and date, the whole request is rejected with the collision error, no
record is written and no notification is published — no partial booking is
ever created. -/
theorem C2_collision_rejected (e : String) (bk : PendingBus) (sstr : String)
    (store : Store) (newId now : String) (hne : sstr ≠ "")
    (hcol : ∃ s ∈ splitSeats sstr, s ∈ takenSeats store bk.item_id bk.travel_date) :
    final_confirm_bus_booking (some e) (some bk) (some sstr) store newId now =
      ⟨store, [], .error .seatCollision⟩ := by
  have hany : (splitSeats sstr).any
      (fun s => decide (s ∈ takenSeats store bk.item_id bk.travel_date)) = true := by
    obtain ⟨s, hs, ht⟩ := hcol
    exact List.any_eq_true.mpr ⟨s, hs, by simpa using ht⟩
  simp [final_confirm_bus_booking, hne, hany]

/-- C2 (witness): with seat S1 already taken on bus B7, requesting
"S1, S2" fails with the collision error and writes nothing. -/
theorem C2_collision_rejected_witness :
    final_confirm_bus_booking (some "u@x") (some busPending) (some "S1, S2") busStoreS1
        "id-col" "2024-06-05T10:00:00" =
      ⟨busStoreS1, [], .error .seatCollision⟩ :=
  C2_collision_rejected "u@x" busPending "S1, S2" busStoreS1 "id-col"
    "2024-06-05T10:00:00" (by decide) ⟨"S1", by decide, by decide⟩

/-- C3: for every train finalize with a pending draft, if the freshly
recomputed available set has fewer seats than `num_persons`, the operation
fails with the insufficient-seats error, the store is unchanged and no
notification is published. -/
theorem C3_insufficient_rejected (e : String) (bd : PendingTrain) (store : Store)
    (sample : List String → Nat → List String) (newId now : String)
    (h : (computeAvailableSeats store bd.item_id bd.travel_date trainUniverse).length <
      bd.num_persons) :
    final_confirm_train_booking (some e) (some bd) store sample newId now =
      ⟨store, [], .error .insufficientSeats⟩ := by
  simp [final_confirm_train_booking, h]

/-- C3 (witness): with 95 of the 100 train seats taken, a 10-person
RANDOM_AUTO request fails with the insufficient-seats error and writes
nothing. -/
theorem C3_insufficient_rejected_witness :
    final_confirm_train_booking (some "u@x") (some pending95) store95
        (fun l n => l.take n) "id-95" "2024-06-01T12:00:00" =
      ⟨store95, [], .error .insufficientSeats⟩ :=
  C3_insufficient_rejected "u@x" pending95 store95 (fun l n => l.take n)
    "id-95" "2024-06-01T12:00:00" (by decide)

/-- C4: for every successful RANDOM_AUTO train finalize whose draft came
from `confirm_train_details` and whose random source behaves as
`random.sample` (on a duplicate-free list it returns the requested number
of distinct elements of the list), the committed record holds exactly
`num_persons` distinct seats drawn from the availability computed at
finalize time, the fresh `booking_id`, `seats_display` equal to the seats
joined with the delimiter, `total_price = price_per_person * num_persons`;
exactly one notification is published, its message carries the seat string
and the total price, and the record is in the resulting store (the
notification exists only in the outcome that also contains the insert). -/
theorem C4_random_auto_commit (email : String) (a : TrainArgs) (store₀ store : Store)
    (bd : PendingTrain) (hconf : confirm_train_details (some email) a store₀ = some bd)
    (sample : List String → Nat → List String)
    (hsample : ∀ l n, l.Nodup → n ≤ l.length →
      (sample l n).length = n ∧ (sample l n).Nodup ∧ ∀ s ∈ sample l n, s ∈ l)
    (newId now : String) (hfreshId : ∀ x ∈ store, x.booking_id ≠ newId)
    (r : BookingRecord)
    (hok : (final_confirm_train_booking (some email) (some bd) store sample newId now).result
      = .ok r) :
    ∃ seats : List String,
      seats.length = bd.num_persons ∧
      seats.Nodup ∧
      (∀ s ∈ seats, s ∈ computeAvailableSeats store bd.item_id bd.travel_date trainUniverse) ∧
      r = mkTrainRecord bd (joinSeats seats) newId now ∧
      r.seats_display = some (joinSeats seats) ∧
      r.booking_id = newId ∧
      (∀ x ∈ store, x.booking_id ≠ r.booking_id) ∧
      r.total_price = some (bd.price_per_person * (bd.num_persons : ℚ)) ∧
      bd.price_per_person = a.price ∧ bd.num_persons = a.persons ∧
      final_confirm_train_booking (some email) (some bd) store sample newId now =
        ⟨put_item store r, [trainNotification bd (joinSeats seats)], .ok r⟩ ∧
      (∃ u v : String,
        (trainNotification bd (joinSeats seats)).message = u ++ joinSeats seats ++ v) ∧
      (∃ u v : String,
        (trainNotification bd (joinSeats seats)).message = u ++ toString bd.total_price ++ v) ∧
      r ∈ (final_confirm_train_booking (some email) (some bd) store sample newId now).store := by
  have hbd : bd = mkPendingTrain email a := by
    by_cases hc : (computeAvailableSeats store₀ (mkPendingTrain email a).item_id
        (mkPendingTrain email a).travel_date trainUniverse).length <
        (mkPendingTrain email a).num_persons
    · simp [confirm_train_details, hc] at hconf
    · simp [confirm_train_details, hc] at hconf
      exact hconf.symm
  by_cases hlen : (computeAvailableSeats store bd.item_id bd.travel_date trainUniverse).length <
      bd.num_persons
  · simp [final_confirm_train_booking, hlen] at hok
  · have hfin : final_confirm_train_booking (some email) (some bd) store sample newId now =
        ⟨put_item store (mkTrainRecord bd
            (joinSeats (sample (computeAvailableSeats store bd.item_id bd.travel_date
              trainUniverse) bd.num_persons)) newId now),
         [trainNotification bd (joinSeats (sample (computeAvailableSeats store bd.item_id
            bd.travel_date trainUniverse) bd.num_persons))],
         .ok (mkTrainRecord bd (joinSeats (sample (computeAvailableSeats store bd.item_id
            bd.travel_date trainUniverse) bd.num_persons)) newId now)⟩ := by
      simp [final_confirm_train_booking, hlen]
    rw [hfin] at hok
    have hr : r = mkTrainRecord bd
        (joinSeats (sample (computeAvailableSeats store bd.item_id bd.travel_date
          trainUniverse) bd.num_persons)) newId now := (Except.ok.inj hok).symm
    obtain ⟨hslen, hsnd, hssub⟩ := hsample
      (computeAvailableSeats store bd.item_id bd.travel_date trainUniverse) bd.num_persons
      (computeAvailableSeats_nodup store bd.item_id bd.travel_date) (Nat.le_of_not_lt hlen)
    refine ⟨sample (computeAvailableSeats store bd.item_id bd.travel_date trainUniverse)
      bd.num_persons, hslen, hsnd, hssub, hr, ?_, ?_, ?_, ?_, ?_, ?_, ?_, ?_, ?_, ?_⟩
    · rw [hr]
      rfl
    · rw [hr]
      rfl
    · rw [hr]
      exact hfreshId
    · rw [hr]
      show some bd.total_price = _
      rw [hbd]
      rfl
    · rw [hbd]
      rfl
    · rw [hbd]
      rfl
    · rw [hfin, hr]
    · refine ⟨"Train " ++ bd.train_number ++ " from " ++ bd.source ++ " to " ++
        bd.destination ++ " on " ++ bd.travel_date ++ " is confirmed.\nSeats: ",
        "\nTotal: ₹" ++ toString bd.total_price, ?_⟩
      simp [trainNotification, String.append_assoc]
    · refine ⟨"Train " ++ bd.train_number ++ " from " ++ bd.source ++ " to " ++
        bd.destination ++ " on " ++ bd.travel_date ++ " is confirmed.\nSeats: " ++
        joinSeats (sample (computeAvailableSeats store bd.item_id bd.travel_date
          trainUniverse) bd.num_persons) ++ "\nTotal: ₹", "", ?_⟩
      simp [trainNotification, String.append_assoc]
    · rw [hfin, hr]
      exact List.mem_append.mpr (Or.inr (List.mem_singleton.mpr rfl))

/-- C4 (witness): the end-to-end scenario on the empty store — 3 persons on
train T100, the sample that takes the first three available seats — commits
a record with 3 distinct available seats and publishes one notification. -/
theorem C4_random_auto_commit_witness :
    ∃ seats : List String,
      seats.length = (mkPendingTrain "u@x" trainArgs3).num_persons ∧
      seats.Nodup ∧
      (∀ s ∈ seats, s ∈ computeAvailableSeats [] (mkPendingTrain "u@x" trainArgs3).item_id
        (mkPendingTrain "u@x" trainArgs3).travel_date trainUniverse) ∧
      mkTrainRecord (mkPendingTrain "u@x" trainArgs3)
          (joinSeats ((computeAvailableSeats [] "T100" "2024-06-01" trainUniverse).take 3))
          "bid-3" "2024-06-01T08:00:00" =
        mkTrainRecord (mkPendingTrain "u@x" trainArgs3) (joinSeats seats)
          "bid-3" "2024-06-01T08:00:00" ∧
      (mkTrainRecord (mkPendingTrain "u@x" trainArgs3)
          (joinSeats ((computeAvailableSeats [] "T100" "2024-06-01" trainUniverse).take 3))
          "bid-3" "2024-06-01T08:00:00").seats_display = some (joinSeats seats) ∧
      (mkTrainRecord (mkPendingTrain "u@x" trainArgs3)
          (joinSeats ((computeAvailableSeats [] "T100" "2024-06-01" trainUniverse).take 3))
          "bid-3" "2024-06-01T08:00:00").booking_id = "bid-3" ∧
      (∀ x ∈ ([] : Store), x.booking_id ≠
        (mkTrainRecord (mkPendingTrain "u@x" trainArgs3)
          (joinSeats ((computeAvailableSeats [] "T100" "2024-06-01" trainUniverse).take 3))
          "bid-3" "2024-06-01T08:00:00").booking_id) ∧
      (mkTrainRecord (mkPendingTrain "u@x" trainArgs3)
          (joinSeats ((computeAvailableSeats [] "T100" "2024-06-01" trainUniverse).take 3))
          "bid-3" "2024-06-01T08:00:00").total_price =
        some ((mkPendingTrain "u@x" trainArgs3).price_per_person *
          ((mkPendingTrain "u@x" trainArgs3).num_persons : ℚ)) ∧
      (mkPendingTrain "u@x" trainArgs3).price_per_person = trainArgs3.price ∧
      (mkPendingTrain "u@x" trainArgs3).num_persons = trainArgs3.persons ∧
      final_confirm_train_booking (some "u@x") (some (mkPendingTrain "u@x" trainArgs3)) []
          (fun l n => l.take n) "bid-3" "2024-06-01T08:00:00" =
        ⟨put_item [] (mkTrainRecord (mkPendingTrain "u@x" trainArgs3)
            (joinSeats ((computeAvailableSeats [] "T100" "2024-06-01" trainUniverse).take 3))
            "bid-3" "2024-06-01T08:00:00"),
          [trainNotification (mkPendingTrain "u@x" trainArgs3) (joinSeats seats)],
          .ok (mkTrainRecord (mkPendingTrain "u@x" trainArgs3)
            (joinSeats ((computeAvailableSeats [] "T100" "2024-06-01" trainUniverse).take 3))
            "bid-3" "2024-06-01T08:00:00")⟩ ∧
      (∃ u v : String,
        (trainNotification (mkPendingTrain "u@x" trainArgs3) (joinSeats seats)).message =
          u ++ joinSeats seats ++ v) ∧
      (∃ u v : String,
        (trainNotification (mkPendingTrain "u@x" trainArgs3) (joinSeats seats)).message =
          u ++ toString (mkPendingTrain "u@x" trainArgs3).total_price ++ v) ∧
      mkTrainRecord (mkPendingTrain "u@x" trainArgs3)
          (joinSeats ((computeAvailableSeats [] "T100" "2024-06-01" trainUniverse).take 3))
          "bid-3" "2024-06-01T08:00:00" ∈
        (final_confirm_train_booking (some "u@x") (some (mkPendingTrain "u@x" trainArgs3)) []
          (fun l n => l.take n) "bid-3" "2024-06-01T08:00:00").store :=
  C4_random_auto_commit "u@x" trainArgs3 [] [] (mkPendingTrain "u@x" trainArgs3)
    rfl
    (fun l n => l.take n)
    (fun l n hnd hle =>
      ⟨by simpa [List.length_take] using Nat.min_eq_left hle,
       hnd.sublist (List.take_sublist n l),
       fun s hs => List.take_subset n l hs⟩)
    "bid-3" "2024-06-01T08:00:00"
    (by simp)
    (mkTrainRecord (mkPendingTrain "u@x" trainArgs3)
      (joinSeats ((computeAvailableSeats [] "T100" "2024-06-01" trainUniverse).take 3))
      "bid-3" "2024-06-01T08:00:00")
    rfl

/-- C5 (counterexample): the claim says available and taken always
partition the universe.  A store can hold a record whose `seats_display`
names the identifier X1, which is outside the 40-seat bus universe: X1 is
then in the taken set but neither in the universe nor in the available set,
so the union of available and taken is strictly larger than the
universe. -/
theorem C5_union_exceeds_universe :
    "X1" ∈ takenSeats oddSeatStore "B1" "2024-06-02" ∧
    "X1" ∉ busUniverse ∧
    "X1" ∉ computeAvailableSeats oddSeatStore "B1" "2024-06-02" busUniverse := by
  decide

/-- C5 (amended): for every store state, the available and taken sets are
disjoint — unconditionally; and whenever every taken seat lies in the
universe (as is the case for every store the application itself writes
through the seat-selection flows), the two sets cover exactly the
universe. -/
theorem C5_partition (store : Store) (i d : String) (u : List String) :
    (∀ s, ¬(s ∈ computeAvailableSeats store i d u ∧ s ∈ takenSeats store i d)) ∧
    ((∀ s ∈ takenSeats store i d, s ∈ u) →
      ∀ s, s ∈ u ↔
        (s ∈ computeAvailableSeats store i d u ∨ s ∈ takenSeats store i d)) := by
  constructor
  · rintro s ⟨ha, ht⟩
    exact (mem_computeAvailableSeats.mp ha).2 ht
  · intro hsub s
    constructor
    · intro hu
      by_cases ht : s ∈ takenSeats store i d
      · exact Or.inr ht
      · exact Or.inl (mem_computeAvailableSeats.mpr ⟨hu, ht⟩)
    · rintro (ha | ht)
      · exact (mem_computeAvailableSeats.mp ha).1
      · exact hsub s ht

/-- C5 (witness): on a store holding S1 and S2 of bus B2, availability and
the taken set are disjoint and together cover the bus universe; the
subset condition of the covering part is discharged concretely. -/
theorem C5_partition_witness :
    (∀ s, ¬(s ∈ computeAvailableSeats demoBusStore "B2" "2024-06-03" busUniverse ∧
            s ∈ takenSeats demoBusStore "B2" "2024-06-03")) ∧
    (∀ s, s ∈ busUniverse ↔
      (s ∈ computeAvailableSeats demoBusStore "B2" "2024-06-03" busUniverse ∨
       s ∈ takenSeats demoBusStore "B2" "2024-06-03")) :=
  ⟨(C5_partition demoBusStore "B2" "2024-06-03" busUniverse).1,
   (C5_partition demoBusStore "B2" "2024-06-03" busUniverse).2 (by decide)⟩

/-- C6: the availability computation is a pure read — it leaves the store
unchanged, and a second invocation on the store state the first one leaves
behind returns the identical result. -/
theorem C6_idempotent_read (store : Store) (i d : String) (u : List String) :
    (computeAvailableSeatsRun store i d u).2 = store ∧
    (computeAvailableSeatsRun ((computeAvailableSeatsRun store i d u).2) i d u).1 =
      (computeAvailableSeatsRun store i d u).1 :=
  ⟨rfl, rfl⟩

/-- C7: a record whose `seats_display` attribute is absent is skipped and
contributes zero taken seats: dropping it from the store changes neither
the taken set nor the availability result, and the computation is total —
it still returns a result over the remaining records. -/
theorem C7_missing_seats_display_skipped (l₁ l₂ : Store) (r : BookingRecord)
    (i d : String) (u : List String) (hr : r.seats_display = none) :
    takenSeats (l₁ ++ r :: l₂) i d = takenSeats (l₁ ++ l₂) i d ∧
    computeAvailableSeats (l₁ ++ r :: l₂) i d u = computeAvailableSeats (l₁ ++ l₂) i d u := by
  have hq : takenSeats (l₁ ++ r :: l₂) i d = takenSeats (l₁ ++ l₂) i d := by
    have hsplit : (r :: l₂ : Store) = [r] ++ l₂ := rfl
    rw [hsplit, ← List.append_assoc, takenSeats_append, takenSeats_append, takenSeats_append]
    have hzero : takenSeats [r] i d = [] := by
      unfold takenSeats queryByItemDate
      cases hf : (r.item_id == some i && r.travel_date == some d) <;>
        simp [List.filter, hf, takenFold, parsedSeats, hr]
    rw [hzero]
    simp
  refine ⟨hq, ?_⟩
  unfold computeAvailableSeats
  rw [hq]

/-- C7 (witness): inserting a record without `seats_display` between two
records of bus B2 leaves the taken set and the availability unchanged. -/
theorem C7_missing_seats_display_skipped_witness :
    takenSeats (demoBusStore ++
        { user_email := "e@x", booking_date := "2024-02-04T00:00:00", booking_id := "bk-nosd",
          booking_type := "bus", item_id := some "B2", travel_date := some "2024-06-03" } ::
        oddSeatStore) "B2" "2024-06-03" =
      takenSeats (demoBusStore ++ oddSeatStore) "B2" "2024-06-03" ∧
    computeAvailableSeats (demoBusStore ++
        { user_email := "e@x", booking_date := "2024-02-04T00:00:00", booking_id := "bk-nosd",
          booking_type := "bus", item_id := some "B2", travel_date := some "2024-06-03" } ::
        oddSeatStore) "B2" "2024-06-03" busUniverse =
      computeAvailableSeats (demoBusStore ++ oddSeatStore) "B2" "2024-06-03" busUniverse :=
  C7_missing_seats_display_skipped demoBusStore oddSeatStore _ "B2" "2024-06-03"
    busUniverse rfl

/-- C8: cancelling by the composite key of one record — on a store where
that key is unique, as the primary key of the table guarantees — removes
exactly that record: the remaining store is the other records unchanged,
and for every seat not named by the deleted record the availability of
every item, date and universe is unchanged. -/
theorem C8_cancel_exact (l₁ l₂ : Store) (r : BookingRecord) (bid : String)
    (hbid : bid ≠ "") (hdate : r.booking_date ≠ "")
    (huniq : ∀ b ∈ l₁ ++ l₂,
      ¬(b.user_email = r.user_email ∧ b.booking_date = r.booking_date)) :
    cancel_booking (some r.user_email) (some bid) (some r.booking_date)
        (l₁ ++ r :: l₂) = l₁ ++ l₂ ∧
    (∀ i d u s, s ∉ parsedSeats r →
      (s ∈ computeAvailableSeats (l₁ ++ l₂) i d u ↔
        s ∈ computeAvailableSeats (l₁ ++ r :: l₂) i d u)) := by
  have hkeep : ∀ b ∈ l₁ ++ l₂,
      (!(b.user_email == r.user_email && b.booking_date == r.booking_date)) = true := by
    intro b hb
    have h' := huniq b hb
    by_cases h1 : b.user_email = r.user_email
    · have h2 : b.booking_date ≠ r.booking_date := fun h2 => h' ⟨h1, h2⟩
      have hf : (b.booking_date == r.booking_date) = false := by simpa using h2
      simp [hf]
    · have hf : (b.user_email == r.user_email) = false := by simpa using h1
      simp [hf]
  constructor
  · show (if bid = "" ∨ r.booking_date = "" then (l₁ ++ r :: l₂)
      else delete_item (l₁ ++ r :: l₂) r.user_email r.booking_date) = l₁ ++ l₂
    rw [if_neg (by simp [hbid, hdate])]
    unfold delete_item
    rw [List.filter_append, List.filter_cons]
    simp only [beq_self_eq_true, Bool.and_self, Bool.not_true, Bool.false_eq_true,
      if_false, reduceIte]
    rw [List.filter_eq_self.mpr (fun b hb => hkeep b (List.mem_append.mpr (Or.inl hb))),
      List.filter_eq_self.mpr (fun b hb => hkeep b (List.mem_append.mpr (Or.inr hb)))]
  · intro i d u s hs
    rw [mem_computeAvailableSeats, mem_computeAvailableSeats]
    have htk : s ∈ takenSeats (l₁ ++ r :: l₂) i d ↔ s ∈ takenSeats (l₁ ++ l₂) i d := by
      rw [mem_takenSeats, mem_takenSeats]
      constructor
      · rintro ⟨b, hbq, hbs⟩
        rcases mem_queryByItemDate.mp hbq with ⟨hbm, hbi, hbd⟩
        rcases List.mem_append.mp hbm with h1 | h2
        · exact ⟨b, mem_queryByItemDate.mpr ⟨List.mem_append.mpr (Or.inl h1), hbi, hbd⟩, hbs⟩
        · rcases List.mem_cons.mp h2 with he | h3
          · subst he
            exact absurd hbs hs
          · exact ⟨b, mem_queryByItemDate.mpr ⟨List.mem_append.mpr (Or.inr h3), hbi, hbd⟩, hbs⟩
      · rintro ⟨b, hbq, hbs⟩
        rcases mem_queryByItemDate.mp hbq with ⟨hbm, hbi, hbd⟩
        refine ⟨b, mem_queryByItemDate.mpr ⟨?_, hbi, hbd⟩, hbs⟩
        rcases List.mem_append.mp hbm with h1 | h2
        · exact List.mem_append.mpr (Or.inl h1)
        · exact List.mem_append.mpr (Or.inr (List.mem_cons.mpr (Or.inr h2)))
    rw [htk]

/-- C8 (witness): deleting the record of user c on the shared B3 trip
leaves exactly the two records of users a and b, and only seat S3 changes
availability. -/
theorem C8_cancel_exact_witness :
    cancel_booking (some recC.user_email) (some "bk-c") (some recC.booking_date)
        ([recA] ++ recC :: [recB]) = [recA] ++ [recB] ∧
    (∀ i d u s, s ∉ parsedSeats recC →
      (s ∈ computeAvailableSeats ([recA] ++ [recB]) i d u ↔
        s ∈ computeAvailableSeats ([recA] ++ recC :: [recB]) i d u)) :=
  C8_cancel_exact [recA] [recB] recC "bk-c" (by decide) (by decide) (by decide)

/-- C9: every record persisted before a commit is still present, unchanged,
after it — for the train, bus, flight and hotel finalize alike, in every
branch of each flow, provided the fresh commit timestamp differs from the
stored booking_date keys (as the microsecond `datetime.now()` key makes
true). -/
theorem C9_persisted_records_never_mutated (store : Store) (b : BookingRecord)
    (hb : b ∈ store) (now : String) (hfresh : ∀ x ∈ store, x.booking_date ≠ now)
    (e₁ e₂ e₃ e₄ : Option String) (pt : Option PendingTrain)
    (sample : List String → Nat → List String) (id₁ : String)
    (pb : Option PendingBus) (sel : Option String) (id₂ : String)
    (pf : Option PendingFlight) (id₃ : String)
    (ph : Option PendingHotel) (id₄ : String) :
    b ∈ (final_confirm_train_booking e₁ pt store sample id₁ now).store ∧
    b ∈ (final_confirm_bus_booking e₂ pb sel store id₂ now).store ∧
    b ∈ (confirm_flight_booking e₃ pf store id₃ now).store ∧
    b ∈ (confirm_hotel_booking e₄ ph store id₄ now).store := by
  have hput : ∀ r : BookingRecord, r.booking_date = now → b ∈ put_item store r :=
    fun r hr => mem_put_item_of_ne_date hb (hr ▸ hfresh b hb)
  refine ⟨?_, ?_, ?_, ?_⟩
  · cases e₁ with
    | none => exact hb
    | some e =>
      cases pt with
      | none => exact hb
      | some bd =>
        by_cases hlen : (computeAvailableSeats store bd.item_id bd.travel_date
            trainUniverse).length < bd.num_persons
        · simpa [final_confirm_train_booking, hlen] using hb
        · simpa [final_confirm_train_booking, hlen] using hput _ rfl
  · cases e₂ with
    | none => exact hb
    | some e =>
      cases pb with
      | none => exact hb
      | some bk =>
        cases sel with
        | none => exact hb
        | some sstr =>
          by_cases hemp : sstr = ""
          · simpa [final_confirm_bus_booking, hemp] using hb
          · by_cases hcol : (splitSeats sstr).any
                (fun s => decide (s ∈ takenSeats store bk.item_id bk.travel_date)) = true
            · simpa [final_confirm_bus_booking, hemp, hcol] using hb
            · simpa [final_confirm_bus_booking, hemp, hcol] using hput _ rfl
  · cases e₃ with
    | none => exact hb
    | some e =>
      cases pf with
      | none => exact hb
      | some p => simpa [confirm_flight_booking] using hput _ rfl
  · cases e₄ with
    | none => exact hb
    | some e =>
      cases ph with
      | none => exact hb
      | some p => simpa [confirm_hotel_booking] using hput _ rfl

/-- C9 (witness): an existing bus record survives a train finalize without
a draft, a successful bus finalize, a flight commit and a hotel commit. -/
theorem C9_persisted_records_never_mutated_witness :
    recA ∈ (final_confirm_train_booking (some "u@x") none [recA]
      (fun l n => l.take n) "id-a" "2024-06-09T09:00:00").store ∧
    recA ∈ (final_confirm_bus_booking (some "u@x") (some busPending) (some "S9") [recA]
      "id-b" "2024-06-09T09:00:00").store ∧
    recA ∈ (confirm_flight_booking (some "u@x") (some flightPending) [recA]
      "id-c" "2024-06-09T09:00:00").store ∧
    recA ∈ (confirm_hotel_booking (some "u@x") (some hotelPending) [recA]
      "id-d" "2024-06-09T09:00:00").store :=
  C9_persisted_records_never_mutated [recA] recA (by decide) "2024-06-09T09:00:00"
    (by decide) (some "u@x") (some "u@x") (some "u@x") (some "u@x") none
    (fun l n => l.take n) "id-a" (some busPending) (some "S9") "id-b"
    (some flightPending) "id-c" (some hotelPending) "id-d"

/-- C10: a committed flight record carries no `item_id` (it stores
`flight_id` instead) and no `seats_display`; a committed hotel record
carries neither `item_id` nor `travel_date` nor `seats_display`; hence a
flight or hotel commit with a fresh timestamp changes the availability of
no `(item_id, travel_date)` pair for any seat universe. -/
theorem C10_flight_hotel_frame (store : Store) (now : String)
    (hfresh : ∀ x ∈ store, x.booking_date ≠ now)
    (e₁ e₂ : String) (pf : PendingFlight) (ph : PendingHotel) (id₁ id₂ : String) :
    (mkFlightRecord pf e₁ id₁ now).item_id = none ∧
    (mkFlightRecord pf e₁ id₁ now).flight_id = some pf.flight_id ∧
    (mkFlightRecord pf e₁ id₁ now).seats_display = none ∧
    (mkHotelRecord ph e₂ id₂ now).item_id = none ∧
    (mkHotelRecord ph e₂ id₂ now).travel_date = none ∧
    (mkHotelRecord ph e₂ id₂ now).seats_display = none ∧
    (∀ i d u, computeAvailableSeats
        (confirm_flight_booking (some e₁) (some pf) store id₁ now).store i d u =
      computeAvailableSeats store i d u) ∧
    (∀ i d u, computeAvailableSeats
        (confirm_hotel_booking (some e₂) (some ph) store id₂ now).store i d u =
      computeAvailableSeats store i d u) := by
  have hframe : ∀ r : BookingRecord, r.booking_date = now → r.item_id = none →
      ∀ i d u, computeAvailableSeats (put_item store r) i d u =
        computeAvailableSeats store i d u := by
    intro r hrd hri i d u
    rw [put_item_eq_append_of_fresh (fun x hx => hrd ▸ hfresh x hx)]
    unfold computeAvailableSeats
    rw [takenSeats_append]
    have hz : takenSeats [r] i d = [] := by
      unfold takenSeats queryByItemDate
      simp [List.filter, hri, takenFold]
    rw [hz, List.append_nil]
  refine ⟨rfl, rfl, rfl, rfl, rfl, rfl, ?_, ?_⟩
  · intro i d u
    exact hframe (mkFlightRecord pf e₁ id₁ now) rfl rfl i d u
  · intro i d u
    exact hframe (mkHotelRecord ph e₂ id₂ now) rfl rfl i d u

/-- C10 (witness): committing a flight and a hotel booking over a store
holding one bus record leaves every availability result unchanged. -/
theorem C10_flight_hotel_frame_witness :
    (mkFlightRecord flightPending "u@x" "id-f" "2024-06-09T09:30:00").item_id = none ∧
    (mkFlightRecord flightPending "u@x" "id-f" "2024-06-09T09:30:00").flight_id =
      some flightPending.flight_id ∧
    (mkFlightRecord flightPending "u@x" "id-f" "2024-06-09T09:30:00").seats_display = none ∧
    (mkHotelRecord hotelPending "u@x" "id-h" "2024-06-09T09:30:00").item_id = none ∧
    (mkHotelRecord hotelPending "u@x" "id-h" "2024-06-09T09:30:00").travel_date = none ∧
    (mkHotelRecord hotelPending "u@x" "id-h" "2024-06-09T09:30:00").seats_display = none ∧
    (∀ i d u, computeAvailableSeats
        (confirm_flight_booking (some "u@x") (some flightPending) [recA]
          "id-f" "2024-06-09T09:30:00").store i d u =
      computeAvailableSeats [recA] i d u) ∧
    (∀ i d u, computeAvailableSeats
        (confirm_hotel_booking (some "u@x") (some hotelPending) [recA]
          "id-h" "2024-06-09T09:30:00").store i d u =
      computeAvailableSeats [recA] i d u) :=
  C10_flight_hotel_frame [recA] "2024-06-09T09:30:00" (by decide) "u@x" "u@x"
    flightPending hotelPending "id-f" "id-h"

end TravelGo
